import Mathlib

/-!
Verification of the joke-notifier application (`joke_notifier.py`).

The development shallowly embeds the non-GUI logic of the program:
the settings dictionary and its JSON persistence (`load_settings`,
`save_settings_to_file`), the request-URL construction and response
processing of `fetch_and_show_joke`, the bounded joke history
(`add_joke_to_list`), and the polling state machine
(`start_notifications` / `stop_notifications` / `toggle_notifications` /
`joke_notification_loop`).  Each definition is translated from the
corresponding Python function; theorems below settle the specification's
claims about them.
-/

namespace JokeNotifier

/-! ## Settings

The Python program keeps settings in a dict with eight keys (defaults
set in `JokeNotifier.__init__`).  We embed it as a structure with one
field per key. -/

structure Settings where
  frequency : Int
  categories : List String
  safe_mode : Bool
  joke_type : String
  language : String
  autostart : Bool
  notification_duration : Int
  max_history : Int
deriving DecidableEq, Repr

/-- Default settings, from `JokeNotifier.__init__` (lines 64-73). -/
def default_settings : Settings :=
  { frequency := 30
    categories := ["Any"]
    safe_mode := true
    joke_type := "Any"
    language := "en"
    autostart := false
    notification_duration := 10
    max_history := 15 }

/-! ## URL construction (fetch_and_show_joke, lines 347-361) -/

/-- Python's `",".join(l)`. -/
def joinComma : List String → String
  | [] => ""
  | [c] => c
  | c :: rest => c ++ "," ++ joinComma rest

/-- Python's `str.lower()`, character by character (the program only
lowercases the ASCII joke-type names "Any", "single", "twopart"). -/
def str_lower (s : String) : String := ⟨s.data.map Char.toLower⟩

def base_url : String := "https://v2.jokeapi.dev/joke/"

/-- The request URL built by `fetch_and_show_joke` (lines 347-361):
base endpoint, comma-joined category list, the fixed blacklist flags,
then optional `safe-mode`, `type` and `lang` parameters. -/
def buildUrl (s : Settings) : String :=
  let categories := joinComma s.categories
  let url := base_url ++ categories ++ "?blacklistFlags=religious,racist,sexist,explicit"
  let url := if s.safe_mode then url ++ "&safe-mode" else url
  let url := if s.joke_type ≠ "Any" then url ++ "&type=" ++ str_lower s.joke_type else url
  let url := if s.language ≠ "en" then url ++ "&lang=" ++ s.language else url
  url

/-- The URL of `buildUrl` as the list of components the code appends, in
order.  `buildUrl s = String.join (urlComponents s)` is proved as part of
the claims below. -/
def urlComponents (s : Settings) : List String :=
  [base_url, joinComma s.categories, "?blacklistFlags=religious,racist,sexist,explicit"]
    ++ (if s.safe_mode then ["&safe-mode"] else [])
    ++ (if s.joke_type ≠ "Any" then ["&type=" ++ str_lower s.joke_type] else [])
    ++ (if s.language ≠ "en" then ["&lang=" ++ s.language] else [])

/-- The suffix of `buildUrl` past the fixed blacklist-flags query, as a
single string. -/
def urlRest (s : Settings) : String :=
  (if s.safe_mode then "&safe-mode" else "")
    ++ (if s.joke_type ≠ "Any" then "&type=" ++ str_lower s.joke_type else "")
    ++ (if s.language ≠ "en" then "&lang=" ++ s.language else "")

/-- The category names the settings dialog can produce: "Any" (radio
button), the six checkbox categories (`available_categories`, lines
735-737), and "Misc" (the fallback in `get_settings`, line 873). -/
def validCategories : List String :=
  ["Any", "Misc", "Programming", "Dark", "Pun", "Spooky", "Christmas"]

/-- The joke-type values the settings dialog can produce
(`get_settings`, lines 881-886). -/
def validJokeTypes : List String := ["Any", "single", "twopart"]

/-- The language codes offered by the settings dialog (lines 796-802). -/
def validLanguages : List String := ["en", "de", "es", "fr", "it"]

/-! ## Joke records and the bounded history -/

/-- A fetched joke with its display metadata: the dict built at lines
390-395 (`joke_with_meta`). -/
structure Joke where
  text : String
  category : String
  time : String
  id : String
deriving DecidableEq, Repr

/-- `add_joke_to_list` (lines 484-493): insert the new joke at the front
of `last_jokes` and truncate to `max_stored_jokes` entries. -/
def add_joke_to_list (max_stored_jokes : Nat) (last_jokes : List Joke)
    (joke_data : Joke) : List Joke :=
  let l := joke_data :: last_jokes
  if l.length > max_stored_jokes then l.take max_stored_jokes else l

/-- N successive `add_joke_to_list` appends, oldest joke first. -/
def addAllJokes (max_stored_jokes : Nat) (last_jokes : List Joke)
    (jokes : List Joke) : List Joke :=
  jokes.foldl (add_joke_to_list max_stored_jokes) last_jokes

/-! ## Response processing (fetch_and_show_joke, lines 363-410) -/

/-- The parsed JSON body of a JokeAPI response.  Fields the code reads
with `.get` and a default (`error`, `message`, `category`, `id`) are
optional; `type`, `joke`, `setup`, `delivery` are read by direct
indexing on the response shape that supplies them. -/
structure JokeData where
  error : Bool
  message : Option String
  type : String
  joke : String
  setup : String
  delivery : String
  category : Option String
  id : Option String
deriving DecidableEq, Repr

/-- The observable outcome of one fetch-and-notify cycle: the status
string emitted on `update_status`, the joke record emitted on
`add_joke` (none on error), the resulting history, and the notification
shown (title, body). -/
structure CycleResult where
  status : String
  emitted : Option Joke
  history : List Joke
  notification : Option (String × String)
deriving DecidableEq, Repr

/-- Processing of a received response in `fetch_and_show_joke` (lines
367-407): on `error=true` emit an error status and stop; otherwise
format the joke text and notification title by type, append to the
history, pick the notification body, notify, and report success. -/
def fetch_and_show_joke (max_stored_jokes : Nat) (last_jokes : List Joke)
    (timestamp : String) (joke_data : JokeData) : CycleResult :=
  if joke_data.error then
    { status := "Error: " ++ joke_data.message.getD "Unknown error"
      emitted := none
      history := last_jokes
      notification := none }
  else
    let joke_text := if joke_data.type = "single" then joke_data.joke
      else joke_data.setup ++ "\n\n" ++ joke_data.delivery
    let notification_title := if joke_data.type = "single" then "Joke Time!"
      else if joke_data.setup.length > 50 then "Joke Time!" else joke_data.setup
    let joke_with_meta : Joke :=
      { text := joke_text
        category := joke_data.category.getD ""
        time := timestamp
        id := joke_data.id.getD "" }
    let new_history := add_joke_to_list max_stored_jokes last_jokes joke_with_meta
    let notification_message :=
      if joke_data.type = "twopart" then joke_data.delivery else joke_text
    { status := "Last joke sent successfully at " ++ timestamp
      emitted := some joke_with_meta
      history := new_history
      notification := some (notification_title, notification_message) }

/-! ## Poller state machine (lines 276-313) -/

/-- The notifier's poller-related state: the running flag, the number of
polling-loop threads started so far (each `threading.Thread(...).start()`
in `start_notifications` begins one), and the UI labels the start/stop
handlers write. -/
structure NotifierState where
  is_running : Bool
  loops_started : Nat
  status_label : String
  toggle_button_text : String
  next_joke_label : String
deriving DecidableEq, Repr

/-- The state after `JokeNotifier.__init__` (lines 58-61, 139, 163,
166). -/
def initNotifierState : NotifierState :=
  { is_running := false
    loops_started := 0
    status_label := "Ready to start"
    toggle_button_text := "Start Notifications"
    next_joke_label := "" }

/-- `start_notifications` (lines 282-298): unconditionally set the
running flag, update the labels, and start a new polling-loop thread. -/
def start_notifications (st : NotifierState) : NotifierState :=
  { st with
    is_running := true
    status_label := "Running - Sending notifications"
    toggle_button_text := "Stop Notifications"
    loops_started := st.loops_started + 1 }

/-- `stop_notifications` (lines 300-313): clear the running flag, update
the labels, and clear the countdown label. -/
def stop_notifications (st : NotifierState) : NotifierState :=
  { st with
    is_running := false
    status_label := "Stopped"
    toggle_button_text := "Start Notifications"
    next_joke_label := "" }

/-- `toggle_notifications` (lines 276-280). -/
def toggle_notifications (st : NotifierState) : NotifierState :=
  if st.is_running then stop_notifications st else start_notifications st

/-! ## The polling loop (joke_notification_loop, lines 315-340)

The loop is embedded as the timestamped trace of events it emits: a
fetch-and-notify cycle, or a countdown update.  Time advances by one
tick per one-second sleep of the countdown loop.  A stop request
arriving at tick `s` makes every read of `is_running` at tick `t ≥ s`
return false (`stopAt = none` means stop is never requested).  `fuel`
bounds the number of outer-loop iterations, since the real loop runs
until stopped. -/

inductive Ev where
  | fetch : Ev
  | countdown (mins secs : Nat) : Ev
deriving DecidableEq, Repr

/-- The value of `self.is_running` as read at tick `t`. -/
def isRunningAt (stopAt : Option Nat) (t : Nat) : Bool :=
  match stopAt with
  | none => true
  | some s => decide (t < s)

/-- The countdown loop (lines 325-336): at each tick while the deadline
is not reached and the notifier is running, emit the remaining time as
minutes and seconds, then sleep one second.  `k` is the number of
seconds left until the deadline. -/
def waitEvents (stopAt : Option Nat) (t : Nat) : Nat → List (Nat × Ev)
  | 0 => []
  | k + 1 =>
    if isRunningAt stopAt t then
      (t, Ev.countdown ((k + 1) / 60) ((k + 1) % 60)) :: waitEvents stopAt (t + 1) k
    else []

/-- The outer loop (lines 320-340): while running, wait `freq` ticks
with countdown updates, then, if still running, perform a
fetch-and-notify cycle and continue. -/
def loopBody (stopAt : Option Nat) (freq : Nat) : Nat → Nat → List (Nat × Ev)
  | _, 0 => []
  | t, fuel + 1 =>
    if isRunningAt stopAt t then
      waitEvents stopAt t freq ++
        (if isRunningAt stopAt (t + freq) then
          (t + freq, Ev.fetch) :: loopBody stopAt freq (t + freq) fuel
        else [])
    else []

/-- `joke_notification_loop` (lines 315-340): one immediate
fetch-and-notify cycle, then the outer wait loop.  `freq` is the wait
in ticks (`frequency * 60` seconds in the code). -/
def joke_notification_loop (stopAt : Option Nat) (freq fuel : Nat) :
    List (Nat × Ev) :=
  (0, Ev.fetch) :: loopBody stopAt freq 0 fuel

/-! ## Settings persistence (lines 596-618)

The settings file holds a JSON object; we embed JSON values with the
shapes the settings use, and the file as an association list of keys to
values.  `json.dump` writes the settings dict; `json.load` followed by
`self.settings.update(...)` merges the file's keys over the current
values.  The merge keeps the current value when a key is absent (and,
in this typed embedding, when a present value does not have the field's
shape — the program never writes such a file). -/

inductive JVal where
  | num (n : Int)
  | str (s : String)
  | bool (b : Bool)
  | arr (elems : List JVal)

/-- Serialization of the settings dict, as written by `json.dump` in
`save_settings_to_file` (lines 596-605): one key per settings field. -/
def settingsToJson (s : Settings) : List (String × JVal) :=
  [("frequency", JVal.num s.frequency),
   ("categories", JVal.arr (s.categories.map JVal.str)),
   ("safe_mode", JVal.bool s.safe_mode),
   ("joke_type", JVal.str s.joke_type),
   ("language", JVal.str s.language),
   ("autostart", JVal.bool s.autostart),
   ("notification_duration", JVal.num s.notification_duration),
   ("max_history", JVal.num s.max_history)]

/-- `save_settings_to_file` produces the file content `json.dump`
writes. -/
def save_settings_to_file (s : Settings) : List (String × JVal) :=
  settingsToJson s

def getNum (kvs : List (String × JVal)) (k : String) (d : Int) : Int :=
  match kvs.lookup k with
  | some (JVal.num n) => n
  | _ => d

def getStr (kvs : List (String × JVal)) (k : String) (d : String) : String :=
  match kvs.lookup k with
  | some (JVal.str s) => s
  | _ => d

def getBool (kvs : List (String × JVal)) (k : String) (d : Bool) : Bool :=
  match kvs.lookup k with
  | some (JVal.bool b) => b
  | _ => d

def decodeStrList : List JVal → Option (List String)
  | [] => some []
  | JVal.str s :: rest => (decodeStrList rest).map (s :: ·)
  | _ => none

def getStrList (kvs : List (String × JVal)) (k : String) (d : List String) :
    List String :=
  match kvs.lookup k with
  | some (JVal.arr l) => (decodeStrList l).getD d
  | _ => d

/-- `self.settings.update(loaded_settings)` (line 616), read back field
by field: every key present in the file overrides the current value,
absent keys keep it. -/
def mergeSettings (cur : Settings) (kvs : List (String × JVal)) : Settings :=
  { frequency := getNum kvs "frequency" cur.frequency
    categories := getStrList kvs "categories" cur.categories
    safe_mode := getBool kvs "safe_mode" cur.safe_mode
    joke_type := getStr kvs "joke_type" cur.joke_type
    language := getStr kvs "language" cur.language
    autostart := getBool kvs "autostart" cur.autostart
    notification_duration := getNum kvs "notification_duration" cur.notification_duration
    max_history := getNum kvs "max_history" cur.max_history }

/-- A settings file holding exactly the fields of `s` whose key is
listed in `keys`: an arbitrary well-typed file carrying a subset of the
schema keys. -/
def fileWithKeys (s : Settings) (keys : List String) : List (String × JVal) :=
  (settingsToJson s).filter (fun kv => kv.1 ∈ keys)

/-- The state of the settings file on disk: absent, present but failing
to open or parse (with the exception text), or parsed to a JSON
object. -/
inductive SettingsFile where
  | missing
  | unreadable (err : String)
  | parsed (kvs : List (String × JVal))

/-- `load_settings` (lines 607-618): if the file exists, parse it and
merge it over the current settings; a missing file changes nothing; any
exception is caught and reported as a status string, leaving the
settings unchanged.  The function is total: no failure propagates. -/
def load_settings (cur : Settings) : SettingsFile → Settings × Option String
  | SettingsFile.missing => (cur, none)
  | SettingsFile.unreadable e => (cur, some ("Error loading settings: " ++ e))
  | SettingsFile.parsed kvs => (mergeSettings cur kvs, none)

/-! ## Application-level settings lifecycle (lines 58-73, 557-594) -/

/-- The notifier fields involved in the settings lifecycle: the settings
dict and the separate `max_stored_jokes` history cap (line 61). -/
structure AppState where
  settings : Settings
  max_stored_jokes : Int
deriving DecidableEq, Repr

/-- The state after `JokeNotifier.__init__` (lines 58-73):
`max_stored_jokes = 15` and default settings. -/
def initAppState : AppState :=
  { settings := default_settings, max_stored_jokes := 15 }

/-- `load_settings` at the application level: only `self.settings` is
updated (lines 607-618); `max_stored_jokes` is not touched. -/
def load_settings_app (st : AppState) (f : SettingsFile) : AppState :=
  { st with settings := (load_settings st.settings f).1 }

/-- The UI state of the settings dialog when the user hits Save. -/
structure DialogUI where
  frequency_slider : Int
  category_mode_any : Bool
  checked_categories : List String
  safe_mode_cb : Bool
  joke_type_sel : String
  language_sel : String
  autostart_cb : Bool
deriving DecidableEq, Repr

/-- `SettingsDialog.get_settings` (lines 858-897): start from a copy of
the current settings and override the fields the dialog edits.
`max_history` and `notification_duration` have no dialog control, so
they are carried over unchanged. -/
def get_settings (current : Settings) (ui : DialogUI) : Settings :=
  { current with
    frequency := ui.frequency_slider
    categories :=
      if ui.category_mode_any then ["Any"]
      else if ui.checked_categories = [] then ["Misc"] else ui.checked_categories
    safe_mode := ui.safe_mode_cb
    joke_type := ui.joke_type_sel
    language := ui.language_sel
    autostart := ui.autostart_cb }

/-- The settings-updating part of `open_settings` after the dialog is
accepted (lines 579-582): install the new settings and refresh the
history cap from their `max_history`. -/
def open_settings_save (st : AppState) (new_settings : Settings) : AppState :=
  { st with
    settings := new_settings
    max_stored_jokes := new_settings.max_history }

/-! ## Helper lemmas -/

theorem str_append_empty (s : String) : s ++ "" = s := by
  apply String.ext
  rw [String.data_append]
  show s.data ++ [] = s.data
  simp

theorem str_empty_append (s : String) : "" ++ s = s := by
  apply String.ext
  rw [String.data_append]
  show [] ++ s.data = s.data
  simp

/-- Taking at most the left part of an appended string sees only the
left part. -/
theorem take_append_left (u v : String) (n : Nat) (hn : n ≤ u.data.length) :
    (u ++ v).data.take n = u.data.take n := by
  rw [String.data_append, List.take_append_eq_append_take,
      Nat.sub_eq_zero_of_le hn, List.take_zero, List.append_nil]

theorem buildUrl_split (s : Settings) :
    buildUrl s =
      (base_url ++ joinComma s.categories
        ++ "?blacklistFlags=religious,racist,sexist,explicit") ++ urlRest s := by
  simp only [buildUrl, urlRest]
  split_ifs <;>
    simp only [String.append_assoc, str_append_empty, str_empty_append]

theorem buildUrl_join_components (s : Settings) :
    buildUrl s = String.join (urlComponents s) := by
  rw [buildUrl_split]
  simp only [urlRest, urlComponents]
  split_ifs <;>
    simp only [String.join, List.foldl, List.append_nil, List.nil_append,
      List.cons_append, String.append_assoc, str_append_empty, str_empty_append]

theorem joinComma_no_amp :
    ∀ l : List String, (∀ c ∈ l, '&' ∉ c.data) → '&' ∉ (joinComma l).data
  | [], _ => by
    show '&' ∉ ("" : String).data
    intro hmem
    simp only [show ("" : String).data = [] from rfl] at hmem
    exact (List.not_mem_nil _ hmem)
  | [c], h => h c (by simp)
  | c :: c2 :: r2, h => by
    have ih := joinComma_no_amp (c2 :: r2) (fun x hx => h x (List.mem_cons_of_mem _ hx))
    have hc := h c (List.mem_cons_self _ _)
    show '&' ∉ ((c ++ "," ++ joinComma (c2 :: r2)).data)
    rw [String.data_append, String.data_append]
    intro hmem
    rcases List.mem_append.mp hmem with hmem' | hmem'
    · rcases List.mem_append.mp hmem' with h1 | h1
      · exact hc h1
      · simp only [show ("," : String).data = [','] from rfl, List.mem_singleton] at h1
        exact absurd h1 (by decide)
    · exact ih hmem'

/-! ## Claims -/

/-- C1 (counterexample): the claim says that for `categories=["Any"]`
the joke lookup path is the bare base endpoint with no category
segment.  With the default settings (whose categories list is exactly
`["Any"]`) the code builds a URL whose path carries the segment "Any",
so the URL does not begin with the bare path followed by the query
string. -/
theorem C1_counterexample :
    buildUrl default_settings
        = "https://v2.jokeapi.dev/joke/Any?blacklistFlags=religious,racist,sexist,explicit&safe-mode"
      ∧ (buildUrl default_settings).data.take ("https://v2.jokeapi.dev/joke/?".length)
        ≠ "https://v2.jokeapi.dev/joke/?".data := by
  constructor
  · decide
  · decide

/-- C1 (amended): for every Settings whose categories list is exactly
`["Any"]`, the request URL's lookup path carries the literal category
segment "Any": the URL begins with
"https://v2.jokeapi.dev/joke/Any?".  (The comma-join of the category
list is applied uniformly; "Any" is not omitted from the path.) -/
theorem C1_url_any_segment (s : Settings) (h : s.categories = ["Any"]) :
    (buildUrl s).data.take ("https://v2.jokeapi.dev/joke/Any?".length)
      = "https://v2.jokeapi.dev/joke/Any?".data := by
  rw [buildUrl_split, h]
  rw [take_append_left _ _ _ (by decide)]
  decide

theorem C1_url_any_segment_witness :
    (buildUrl default_settings).data.take ("https://v2.jokeapi.dev/joke/Any?".length)
      = "https://v2.jokeapi.dev/joke/Any?".data :=
  C1_url_any_segment default_settings (by decide)

/-- C2 (counterexample): the claim says `start()` invoked while Running
is a no-op.  In the code, `start_notifications` unconditionally starts
a new polling-loop thread: invoked on a running state it changes the
state, beginning an additional loop. -/
theorem C2_counterexample :
    start_notifications (start_notifications initNotifierState)
        ≠ start_notifications initNotifierState
      ∧ (start_notifications (start_notifications initNotifierState)).loops_started
        = (start_notifications initNotifierState).loops_started + 1 := by
  constructor
  · decide
  · decide

/-- C2 (amended): `start_notifications` invoked while Running keeps the
state Running but starts an additional polling loop — it is not a
no-op.  The guard against double-starting exists only at the toggle
entry point: `toggle_notifications` on a Running state performs
`stop_notifications` rather than starting. -/
theorem C2_start_not_noop (st : NotifierState) (h : st.is_running = true) :
    (start_notifications st).is_running = true
      ∧ (start_notifications st).loops_started = st.loops_started + 1
      ∧ toggle_notifications st = stop_notifications st := by
  refine ⟨rfl, rfl, ?_⟩
  unfold toggle_notifications
  rw [h]
  simp

theorem waitEvents_tick_lt (s : Nat) :
    ∀ (k t t' : Nat) (e : Ev), (t', e) ∈ waitEvents (some s) t k → t' < s := by
  intro k
  induction k with
  | zero => intro t t' e h; simp [waitEvents] at h
  | succ k ih =>
    intro t t' e h
    by_cases hr : isRunningAt (some s) t = true
    · rw [waitEvents, if_pos hr] at h
      rcases List.mem_cons.mp h with h1 | h1
      · rw [Prod.mk.injEq] at h1
        rw [h1.1]
        simpa [isRunningAt] using hr
      · exact ih (t + 1) t' e h1
    · rw [waitEvents, if_neg hr] at h
      simp at h

theorem loopBody_tick_lt (s freq : Nat) :
    ∀ (fuel t t' : Nat) (e : Ev), (t', e) ∈ loopBody (some s) freq t fuel → t' < s := by
  intro fuel
  induction fuel with
  | zero => intro t t' e h; simp [loopBody] at h
  | succ fuel ih =>
    intro t t' e h
    by_cases hr : isRunningAt (some s) t = true
    · rw [loopBody, if_pos hr] at h
      rcases List.mem_append.mp h with h1 | h1
      · exact waitEvents_tick_lt s freq t t' e h1
      · by_cases hr2 : isRunningAt (some s) (t + freq) = true
        · rw [if_pos hr2] at h1
          rcases List.mem_cons.mp h1 with h2 | h2
          · rw [Prod.mk.injEq] at h2
            rw [h2.1]
            simpa [isRunningAt] using hr2
          · exact ih (t + freq) t' e h2
        · rw [if_neg hr2] at h1
          simp at h1
    · rw [loopBody, if_neg hr] at h
      simp at h

/-- C3: if a stop request arrives at tick `s` (with `s > 0`, i.e.
during or after the wait phase that follows the initial immediate
fetch), every event the polling loop emits — every fetch-and-notify
cycle and every countdown update — carries a tick strictly before `s`.
In particular the loop performs no further fetch and emits no further
countdown once the stop takes effect, for any loop fuel: the loop
halts. -/
theorem C3_stop_halts_loop (freq fuel s t : Nat) (e : Ev) (hs : 0 < s)
    (hmem : (t, e) ∈ joke_notification_loop (some s) freq fuel) : t < s := by
  rcases List.mem_cons.mp hmem with h1 | h1
  · rw [Prod.mk.injEq] at h1
    rw [h1.1]
    exact hs
  · exact loopBody_tick_lt s freq fuel 0 t e h1

theorem C3_stop_halts_loop_witness : 1 < 2 :=
  C3_stop_halts_loop 3 1 2 1 (Ev.countdown 0 2) (by decide) (by decide)

/-- C4: for a successful response of type "twopart" with setup S and
delivery D, the emitted joke record's text is S, a blank line, then D;
the notification is (S, D) when S has at most 50 characters and
("Joke Time!", D) when S is longer. -/
theorem C4_twopart_formatting (max_stored : Nat) (hist : List Joke)
    (ts : String) (d : JokeData)
    (herr : d.error = false) (htype : d.type = "twopart") :
    (fetch_and_show_joke max_stored hist ts d).emitted
        = some { text := d.setup ++ "\n\n" ++ d.delivery,
                 category := d.category.getD "", time := ts, id := d.id.getD "" }
      ∧ (d.setup.length ≤ 50 →
          (fetch_and_show_joke max_stored hist ts d).notification
            = some (d.setup, d.delivery))
      ∧ (50 < d.setup.length →
          (fetch_and_show_joke max_stored hist ts d).notification
            = some ("Joke Time!", d.delivery)) := by
  unfold fetch_and_show_joke
  rw [herr, htype]
  refine ⟨rfl, fun hlen => ?_, fun hlen => ?_⟩
  · show some (if d.setup.length > 50 then "Joke Time!" else d.setup, d.delivery)
        = some (d.setup, d.delivery)
    rw [if_neg (by omega)]
  · show some (if d.setup.length > 50 then "Joke Time!" else d.setup, d.delivery)
        = some ("Joke Time!", d.delivery)
    rw [if_pos (by omega)]

theorem C4_twopart_formatting_witness :
    (fetch_and_show_joke 15 [] "09:00 AM"
        { error := false, message := none, type := "twopart", joke := "",
          setup := "S", delivery := "D", category := some "Pun", id := some "7" }).emitted
        = some { text := "S" ++ "\n\n" ++ "D", category := "Pun",
                 time := "09:00 AM", id := "7" }
      ∧ ((("S" : String)).length ≤ 50 →
          (fetch_and_show_joke 15 [] "09:00 AM"
            { error := false, message := none, type := "twopart", joke := "",
              setup := "S", delivery := "D", category := some "Pun", id := some "7" }).notification
            = some ("S", "D"))
      ∧ (50 < (("S" : String)).length →
          (fetch_and_show_joke 15 [] "09:00 AM"
            { error := false, message := none, type := "twopart", joke := "",
              setup := "S", delivery := "D", category := some "Pun", id := some "7" }).notification
            = some ("Joke Time!", "D")) :=
  C4_twopart_formatting 15 [] "09:00 AM" _ (by decide) (by decide)

/-- C5: for a response with `error=true` and message M, the cycle emits
the error status "Error: M" (which contains M), emits no joke record,
leaves the history unchanged, and shows no notification. -/
theorem C5_error_response (max_stored : Nat) (hist : List Joke)
    (ts M : String) (d : JokeData)
    (herr : d.error = true) (hmsg : d.message = some M) :
    (fetch_and_show_joke max_stored hist ts d).status = "Error: " ++ M
      ∧ (fetch_and_show_joke max_stored hist ts d).emitted = none
      ∧ (fetch_and_show_joke max_stored hist ts d).history = hist
      ∧ (fetch_and_show_joke max_stored hist ts d).notification = none := by
  simp [fetch_and_show_joke, herr, hmsg]

theorem C5_error_response_witness :
    (fetch_and_show_joke 15 [] "09:00 AM"
        { error := true, message := some "No jokes found", type := "", joke := "",
          setup := "", delivery := "", category := none, id := none }).status
        = "Error: " ++ "No jokes found"
      ∧ (fetch_and_show_joke 15 [] "09:00 AM"
          { error := true, message := some "No jokes found", type := "", joke := "",
            setup := "", delivery := "", category := none, id := none }).emitted = none
      ∧ (fetch_and_show_joke 15 [] "09:00 AM"
          { error := true, message := some "No jokes found", type := "", joke := "",
            setup := "", delivery := "", category := none, id := none }).history = []
      ∧ (fetch_and_show_joke 15 [] "09:00 AM"
          { error := true, message := some "No jokes found", type := "", joke := "",
            setup := "", delivery := "", category := none, id := none }).notification = none :=
  C5_error_response 15 [] "09:00 AM" "No jokes found" _ (by decide) (by decide)

theorem add_joke_to_list_take (m : Nat) (hist : List Joke) (j : Joke) :
    add_joke_to_list m hist j = (j :: hist).take m := by
  unfold add_joke_to_list
  by_cases hl : (j :: hist).length > m
  · rw [if_pos hl]
  · rw [if_neg hl]
    push_neg at hl
    exact (List.take_of_length_le hl).symm

theorem length_add_joke_le (m : Nat) (hist : List Joke) (j : Joke) :
    (add_joke_to_list m hist j).length ≤ m := by
  rw [add_joke_to_list_take m hist j, List.length_take]
  exact Nat.min_le_left _ _

theorem take_append_take {α : Type} (n : Nat) (l₁ l₂ : List α) :
    (l₁ ++ l₂.take n).take n = (l₁ ++ l₂).take n := by
  rw [List.take_append_eq_append_take, List.take_append_eq_append_take,
      List.take_take, Nat.min_eq_left (Nat.sub_le n l₁.length)]

theorem addAllJokes_eq (m : Nat) :
    ∀ (js hist : List Joke), hist.length ≤ m →
      addAllJokes m hist js = (js.reverse ++ hist).take m := by
  intro js
  induction js with
  | nil =>
    intro hist h
    simp only [addAllJokes, List.foldl_nil, List.reverse_nil, List.nil_append]
    exact (List.take_of_length_le h).symm
  | cons j js ih =>
    intro hist h
    calc addAllJokes m hist (j :: js)
        = addAllJokes m (add_joke_to_list m hist j) js := rfl
      _ = (js.reverse ++ add_joke_to_list m hist j).take m :=
          ih _ (length_add_joke_le m hist j)
      _ = (js.reverse ++ (j :: hist).take m).take m := by
          rw [add_joke_to_list_take m hist j]
      _ = (js.reverse ++ (j :: hist)).take m := take_append_take m _ _
      _ = ((j :: js).reverse ++ hist).take m := by
          simp [List.reverse_cons, List.append_assoc]

/-- C6: starting from the empty history, after appending more jokes than
`max_stored_jokes`, the stored history has length exactly
`max_stored_jokes` and equals the most recent jokes in
most-recent-first order; moreover the bound
`length ≤ max_stored_jokes` is preserved by every single append. -/
theorem C6_history_bound (m : Nat) (js : List Joke) (h : m < js.length) :
    (addAllJokes m [] js).length = m
      ∧ addAllJokes m [] js = js.reverse.take m
      ∧ ∀ (hist : List Joke) (j : Joke), hist.length ≤ m →
          (add_joke_to_list m hist j).length ≤ m := by
  have he : addAllJokes m [] js = js.reverse.take m := by
    rw [addAllJokes_eq m js [] (by simp), List.append_nil]
  refine ⟨?_, he, fun hist j hh => length_add_joke_le m hist j⟩
  rw [he, List.length_take, List.length_reverse]
  exact Nat.min_eq_left (Nat.le_of_lt h)

theorem C6_history_bound_witness :
    (addAllJokes 1 [] [{ text := "a", category := "", time := "", id := "" },
                       { text := "b", category := "", time := "", id := "" }]).length = 1
      ∧ addAllJokes 1 [] [{ text := "a", category := "", time := "", id := "" },
                          { text := "b", category := "", time := "", id := "" }]
          = ([{ text := "a", category := "", time := "", id := "" },
              { text := "b", category := "", time := "", id := "" }] :
              List Joke).reverse.take 1
      ∧ ∀ (hist : List Joke) (j : Joke), hist.length ≤ 1 →
          (add_joke_to_list 1 hist j).length ≤ 1 :=
  C6_history_bound 1 _ (by decide)

theorem decodeStrList_map (l : List String) :
    decodeStrList (l.map JVal.str) = some l := by
  induction l with
  | nil => rfl
  | cons s rest ih => simp [decodeStrList, ih]

/-- C7: saving any Settings to the settings file and loading it back
(merging the file over any current in-memory settings) restores exactly
the saved Settings on every field, with no error status. -/
theorem C7_settings_roundtrip (cur s : Settings) :
    load_settings cur (SettingsFile.parsed (save_settings_to_file s)) = (s, none) := by
  cases s with
  | mk f c sm jt lg au nd mh =>
    simp [load_settings, save_settings_to_file, settingsToJson, mergeSettings,
      getNum, getStr, getBool, getStrList, List.lookup, decodeStrList_map]

theorem lookup_filter_mem {β : Type} (k : String) (keys : List String)
    (kvs : List (String × β)) (hk : k ∈ keys) :
    (kvs.filter (fun kv => kv.1 ∈ keys)).lookup k = kvs.lookup k := by
  induction kvs with
  | nil => rfl
  | cons a rest ih =>
    obtain ⟨k', v⟩ := a
    by_cases ha : k' ∈ keys
    · rw [List.filter_cons_of_pos (by simpa using ha)]
      by_cases hke : k = k'
      · simp [List.lookup, hke]
      · simp [List.lookup, hke, ih]
    · rw [List.filter_cons_of_neg (by simpa using ha)]
      have hke : k ≠ k' := fun he => ha (he ▸ hk)
      have hbe : (k == k') = false := beq_eq_false_iff_ne.mpr hke
      simp [List.lookup, hbe, ih]

theorem lookup_filter_not_mem {β : Type} (k : String) (keys : List String)
    (kvs : List (String × β)) (hk : k ∉ keys) :
    (kvs.filter (fun kv => kv.1 ∈ keys)).lookup k = none := by
  induction kvs with
  | nil => rfl
  | cons a rest ih =>
    obtain ⟨k', v⟩ := a
    by_cases ha : k' ∈ keys
    · rw [List.filter_cons_of_pos (by simpa using ha)]
      have hke : k ≠ k' := fun he => hk (he ▸ ha)
      have hbe : (k == k') = false := beq_eq_false_iff_ne.mpr hke
      simp [List.lookup, hbe, ih]
    · rw [List.filter_cons_of_neg (by simpa using ha)]
      exact ih

/-- C8: `load_settings` is a total function — no failure propagates.
A missing file leaves the current (default) settings in place with no
status message; an unreadable or unparseable file leaves them in place
and reports a status string; a partial file (any subset `keys` of the
schema keys) overrides exactly the fields whose key is present and
keeps the current value for every other field. -/
theorem C8_load_never_raises (cur s : Settings) (keys : List String) (e : String) :
    load_settings cur SettingsFile.missing = (cur, none)
      ∧ load_settings cur (SettingsFile.unreadable e)
          = (cur, some ("Error loading settings: " ++ e))
      ∧ (load_settings cur (SettingsFile.parsed (fileWithKeys s keys))).1
          = { frequency := if "frequency" ∈ keys then s.frequency else cur.frequency
              categories := if "categories" ∈ keys then s.categories else cur.categories
              safe_mode := if "safe_mode" ∈ keys then s.safe_mode else cur.safe_mode
              joke_type := if "joke_type" ∈ keys then s.joke_type else cur.joke_type
              language := if "language" ∈ keys then s.language else cur.language
              autostart := if "autostart" ∈ keys then s.autostart else cur.autostart
              notification_duration :=
                if "notification_duration" ∈ keys then s.notification_duration
                else cur.notification_duration
              max_history := if "max_history" ∈ keys then s.max_history
                else cur.max_history } := by
  refine ⟨rfl, rfl, ?_⟩
  show mergeSettings cur (fileWithKeys s keys) = _
  unfold mergeSettings fileWithKeys
  congr 1
  · unfold getNum
    by_cases h : "frequency" ∈ keys
    · rw [lookup_filter_mem _ _ _ h, if_pos h,
        show (settingsToJson s).lookup "frequency" = some (JVal.num s.frequency) from rfl]
    · rw [lookup_filter_not_mem _ _ _ h, if_neg h]
  · unfold getStrList
    by_cases h : "categories" ∈ keys
    · rw [lookup_filter_mem _ _ _ h, if_pos h,
        show (settingsToJson s).lookup "categories"
          = some (JVal.arr (s.categories.map JVal.str)) from rfl]
      simp [decodeStrList_map]
    · rw [lookup_filter_not_mem _ _ _ h, if_neg h]
  · unfold getBool
    by_cases h : "safe_mode" ∈ keys
    · rw [lookup_filter_mem _ _ _ h, if_pos h,
        show (settingsToJson s).lookup "safe_mode" = some (JVal.bool s.safe_mode) from rfl]
    · rw [lookup_filter_not_mem _ _ _ h, if_neg h]
  · unfold getStr
    by_cases h : "joke_type" ∈ keys
    · rw [lookup_filter_mem _ _ _ h, if_pos h,
        show (settingsToJson s).lookup "joke_type" = some (JVal.str s.joke_type) from rfl]
    · rw [lookup_filter_not_mem _ _ _ h, if_neg h]
  · unfold getStr
    by_cases h : "language" ∈ keys
    · rw [lookup_filter_mem _ _ _ h, if_pos h,
        show (settingsToJson s).lookup "language" = some (JVal.str s.language) from rfl]
    · rw [lookup_filter_not_mem _ _ _ h, if_neg h]
  · unfold getBool
    by_cases h : "autostart" ∈ keys
    · rw [lookup_filter_mem _ _ _ h, if_pos h,
        show (settingsToJson s).lookup "autostart" = some (JVal.bool s.autostart) from rfl]
    · rw [lookup_filter_not_mem _ _ _ h, if_neg h]
  · unfold getNum
    by_cases h : "notification_duration" ∈ keys
    · rw [lookup_filter_mem _ _ _ h, if_pos h,
        show (settingsToJson s).lookup "notification_duration"
          = some (JVal.num s.notification_duration) from rfl]
    · rw [lookup_filter_not_mem _ _ _ h, if_neg h]
  · unfold getNum
    by_cases h : "max_history" ∈ keys
    · rw [lookup_filter_mem _ _ _ h, if_pos h,
        show (settingsToJson s).lookup "max_history" = some (JVal.num s.max_history) from rfl]
    · rw [lookup_filter_not_mem _ _ _ h, if_neg h]

theorem valid_categories_no_amp : ∀ c ∈ validCategories, '&' ∉ c.data := by
  decide

theorem joinComma_ne_safemode (s : Settings)
    (hc : ∀ c ∈ s.categories, c ∈ validCategories) :
    joinComma s.categories ≠ "&safe-mode" := by
  intro heq
  have hamp : '&' ∉ (joinComma s.categories).data :=
    joinComma_no_amp s.categories
      (fun c hcm => valid_categories_no_amp c (hc c hcm))
  rw [heq] at hamp
  exact hamp (by decide)

/-- C9: for every Settings reachable from the settings dialog, the
request URL is the concatenation of its components, the fixed
blacklist-flags query (religious, racist, sexist, explicit) is always
one of them regardless of safe mode, and the safe-mode flag is one of
them exactly when `safe_mode` is true. -/
theorem C9_blacklist_always_safemode_iff (s : Settings)
    (hc : ∀ c ∈ s.categories, c ∈ validCategories)
    (ht : s.joke_type ∈ validJokeTypes)
    (hl : s.language ∈ validLanguages) :
    buildUrl s = String.join (urlComponents s)
      ∧ "?blacklistFlags=religious,racist,sexist,explicit" ∈ urlComponents s
      ∧ ("&safe-mode" ∈ urlComponents s ↔ s.safe_mode = true) := by
  refine ⟨buildUrl_join_components s, by simp [urlComponents], ?_⟩
  have hA : ("&safe-mode" : String)
      ∉ [base_url, joinComma s.categories,
         "?blacklistFlags=religious,racist,sexist,explicit"] := by
    intro hm
    rcases List.mem_cons.mp hm with h | hm
    · exact absurd h (by decide)
    rcases List.mem_cons.mp hm with h | hm
    · exact joinComma_ne_safemode s hc h.symm
    rcases List.mem_cons.mp hm with h | hm
    · exact absurd h (by decide)
    · simp at hm
  have hC : ("&safe-mode" : String)
      ∉ (if s.joke_type ≠ "Any" then ["&type=" ++ str_lower s.joke_type] else []) := by
    have ht' : s.joke_type = "Any" ∨ s.joke_type = "single" ∨ s.joke_type = "twopart" := by
      simpa [validJokeTypes] using ht
    rcases ht' with h | h | h <;> rw [h] <;> decide
  have hD : ("&safe-mode" : String)
      ∉ (if s.language ≠ "en" then ["&lang=" ++ s.language] else []) := by
    have hl' : s.language = "en" ∨ s.language = "de" ∨ s.language = "es"
        ∨ s.language = "fr" ∨ s.language = "it" := by
      simpa [validLanguages] using hl
    rcases hl' with h | h | h | h | h <;> rw [h] <;> decide
  constructor
  · intro hmem
    simp only [urlComponents] at hmem
    rcases List.mem_append.mp hmem with h | h
    · rcases List.mem_append.mp h with h' | h'
      · rcases List.mem_append.mp h' with h'' | h''
        · exact absurd h'' hA
        · cases hsf : s.safe_mode
          · rw [hsf] at h''
            simp at h''
          · rfl
      · exact absurd h' hC
    · exact absurd h hD
  · intro hsf
    simp [urlComponents, hsf]

theorem C9_blacklist_always_safemode_iff_witness :
    buildUrl default_settings = String.join (urlComponents default_settings)
      ∧ "?blacklistFlags=religious,racist,sexist,explicit" ∈ urlComponents default_settings
      ∧ ("&safe-mode" ∈ urlComponents default_settings
          ↔ default_settings.safe_mode = true) :=
  C9_blacklist_always_safemode_iff default_settings (by decide) (by decide) (by decide)

/-- C10: loading the settings file touches only the settings dict:
`max_stored_jokes` stays at whatever it was (15 from the constructor),
even when the file carries a different `max_history`, which does land
in the settings; the cap changes only when the settings dialog is
saved, at which point `open_settings` refreshes it from the (carried
over) `max_history`. -/
theorem C10_history_cap_frame (st : AppState) (f : SettingsFile) (m : Int)
    (new_s : Settings) (ui : DialogUI) :
    (load_settings_app st f).max_stored_jokes = st.max_stored_jokes
      ∧ (load_settings_app initAppState f).max_stored_jokes = 15
      ∧ (load_settings_app initAppState
          (SettingsFile.parsed [("max_history", JVal.num m)])).settings.max_history = m
      ∧ (open_settings_save st new_s).max_stored_jokes = new_s.max_history
      ∧ (open_settings_save
            (load_settings_app initAppState
              (SettingsFile.parsed [("max_history", JVal.num m)]))
            (get_settings
              (load_settings_app initAppState
                (SettingsFile.parsed [("max_history", JVal.num m)])).settings
              ui)).max_stored_jokes = m :=
  ⟨rfl, rfl, rfl, rfl, rfl⟩

theorem C2_start_not_noop_witness :
    (start_notifications (start_notifications initNotifierState)).is_running = true
      ∧ (start_notifications (start_notifications initNotifierState)).loops_started
        = (start_notifications initNotifierState).loops_started + 1
      ∧ toggle_notifications (start_notifications initNotifierState)
        = stop_notifications (start_notifications initNotifierState) :=
  C2_start_not_noop (start_notifications initNotifierState) (by decide)

end JokeNotifier
